import Mathlib

/- Shallow embedding of the SikumAI repository core:
   src/functions/book.py (chapter location) and src/chatbot/chatbot.py
   (prompt execution with retry and cache, response parsers, pipeline).
   Page texts are plain strings; the PDF collaborator is represented by
   the list of extracted page texts. Exceptions of the Python code are
   modelled with Except. -/

instance {ε α : Type} [DecidableEq ε] [DecidableEq α] : DecidableEq (Except ε α)
  | .ok x, .ok y => decidable_of_iff (x = y) (by simp)
  | .ok _, .error _ => .isFalse (fun h => Except.noConfusion h)
  | .error _, .ok _ => .isFalse (fun h => Except.noConfusion h)
  | .error e, .error f => decidable_of_iff (e = f) (by simp)

/-- Whitespace characters stripped by the Python str.strip method and
matched by the regex class backslash-s (ASCII range). -/
def isSpaceChar (c : Char) : Bool :=
  c == ' ' || c == '\t' || c == '\n' || c == '\r' || c == '\x0b' || c == '\x0c'

/-- Python str.strip on a character list: drop whitespace from both ends. -/
def pyStrip (cs : List Char) : List Char :=
  ((cs.dropWhile isSpaceChar).reverse.dropWhile isSpaceChar).reverse

/-- Drop an expected literal from the head of a list: some remainder when
the literal is there, none otherwise. -/
def stripPre : List Char → List Char → Option (List Char)
  | [], cs => some cs
  | _ :: _, [] => none
  | p :: ps, c :: cs => if c = p then stripPre ps cs else none

/-- Python substring containment test (the `in` operator on strings). -/
def containsSub (needle hay : List Char) : Bool :=
  hay.tails.any (fun t => needle.isPrefixOf t)

/-- Python `needle in hay` for strings. -/
def substrIn (needle hay : String) : Bool :=
  containsSub needle.toList hay.toList

/-- Pointwise update of the chapters dict of book.py (string key to int). -/
def updMap (m : String → Int) (k : String) (v : Int) : String → Int :=
  fun x => if x = k then v else m x

/-- One iteration of the inner loop of find_chapter (book.py lines 41-47):
walk the chapter list in order; the first title contained in the page text
is recorded at the current page index and the loop breaks; otherwise, on
the final page, the title is recorded as -1 and the loop breaks. -/
def scanPage (isLast : Bool) (i : Nat) (pageText : String) :
    List String → (String → Int) → String → Int
  | [], m => m
  | c :: rest, m =>
    if substrIn c pageText then updMap m c i
    else if isLast then updMap m c (-1)
    else scanPage isLast i pageText rest m

/-- The page scan of find_chapter (book.py lines 38-47): the dict starts
with every listed title at 0 and each page is processed in order. -/
def scanPages (pages : List String) (chapter_list : List String) : String → Int :=
  pages.enum.foldl
    (fun m ip => scanPage (ip.1 == pages.length - 1) ip.1 ip.2 chapter_list m)
    (fun _ => 0)

/-- Python range(a, b + 1) as a list of page indices (book.py line 64). -/
def pyRangeIncl (a b : Int) : List Nat :=
  if b < a then [] else List.range' a.toNat (b - a + 1).toNat

/-- The extraction loop of find_chapter (book.py lines 64-66): concatenate
the text of each indexed page followed by a space; an index past the end
of the document raises IndexError. -/
def extractLoop (pages : List String) : List Nat → Except String String
  | [] => .ok ""
  | i :: rest =>
    match pages.get? i with
    | none => .error "IndexError"
    | some p =>
      match extractLoop pages rest with
      | .ok s => .ok (p ++ " " ++ s)
      | .error e => .error e

/-- Wrap a successful extraction in the Option of the found chapter text. -/
def exceptSome : Except String String → Except String (Option String)
  | .ok t => .ok (some t)
  | .error e => .error e

/-- find_chapter of book.py (lines 32-68). The first argument is the
cached chapter text returned by the get_chapter collaborator (lines
33-34). A missing dict key (line 51) raises KeyError; the out-of-range
subscript chapter_list[index + 1] (line 57) raises IndexError before the
last-chapter branch of lines 59-60, which is therefore dead; the branch
is kept to mirror the source. -/
def find_chapter (cached : Option String) (pages : List String)
    (chapter_name : String) (chapter_list : List String) :
    Except String (Option String) :=
  match cached with
  | some t => .ok (some t)
  | none =>
    let chapters := scanPages pages chapter_list
    if chapter_name ∈ chapter_list then
      if chapters chapter_name = -1 ∨ chapters chapter_name = 0 then .ok none
      else
        let index := chapter_list.indexOf chapter_name
        let start := chapters chapter_name
        match chapter_list.get? (index + 1) with
        | none => .error "IndexError"
        | some nextc =>
          let e0 := chapters nextc
          let e1 : Int :=
            if index = chapter_list.length - 1 then (pages.length : Int) - 1
            else if e0 ≤ 0 then (index : Int) + 5
            else e0
          exceptSome (extractLoop pages (pyRangeIncl start e1))
    else .error "KeyError"







/-- Outcome of one attempt of the remote generation call in execute_prompt
(chatbot.py lines 49-61): a 200 response with a well-formed body yields
the answer text; a non-200 status, a transport exception or a malformed
body all land in the retry path. -/
inductive ApiOutcome where
  | success (text : String)
  | failure
deriving DecidableEq

/-- The fixed failure sentinel returned by execute_prompt after the retry
budget is exhausted (chatbot.py line 63). -/
def sentinelMsg : String := "Could not get answer from API, try again later"

/-- Modelled from the spec: save_prompt of functions/prompt_caching.py is
not under src; per the spec it stores the response under the exact prompt
string, overwriting any prior entry. -/
def updCache (c : String → Option String) (k v : String) : String → Option String :=
  fun x => if x = k then some v else c x

/-- The while loop of execute_prompt (chatbot.py lines 46-61) on the list
of outcomes of the successive attempts: a failure consumes one attempt, a
success stores the answer in the cache and returns it at once. Returns the
answer, the cache after the loop and the number of attempts performed. -/
def attemptLoop (prompt : String) (cache : String → Option String) :
    List ApiOutcome → String × (String → Option String) × Nat
  | [] => (sentinelMsg, cache, 0)
  | .success t :: _ => (t, updCache cache prompt t, 1)
  | .failure :: rest =>
    let r := attemptLoop prompt cache rest
    (r.1, r.2.1, r.2.2 + 1)

/-- execute_prompt of chatbot.py (lines 25-63). The cache is the prompt
cache of the get_prompt and save_prompt collaborators keyed by the exact
prompt string; api gives the outcome of the attempt with a given index;
max_tries is 3. Returns the answer, the cache after the call and the
number of attempts performed. -/
def execute_prompt (cache : String → Option String) (prompt : String)
    (override : Bool) (api : Nat → ApiOutcome) :
    String × (String → Option String) × Nat :=
  match cache prompt, override with
  | some r, false => (r, cache, 0)
  | none, _ => attemptLoop prompt cache [api 0, api 1, api 2]
  | some _, true => attemptLoop prompt cache [api 0, api 1, api 2]



/-- Python str.split(sep) with a nonempty separator, on character lists,
with a fuel argument (the wrapper passes the length of the input, which
always suffices since every step consumes at least one character). -/
def pySplitF (sep : List Char) (f : Nat) (cs : List Char) : List (List Char) :=
  match cs, f with
  | [], _ => [[]]
  | c :: rest, 0 => [c :: rest]
  | c :: rest, g + 1 =>
    if sep.isPrefixOf (c :: rest) then
      [] :: pySplitF sep g (rest.drop (sep.length - 1))
    else
      match pySplitF sep g rest with
      | p :: ps => (c :: p) :: ps
      | [] => [[c]]

/-- Python str.split(sep) for a nonempty separator. -/
def pySplit (sep cs : List Char) : List (List Char) :=
  pySplitF sep cs.length cs



/-- The literal answer marker of parse_questions_and_answers
(chatbot.py line 151). -/
def answerMarker : List Char := "**Answer:**".toList

/-- The answer extraction of parse_questions_and_answers (chatbot.py line
151): if the answer marker occurs in the content segment, the answer is
element 1 of the Python split on the marker (the text up to the next
occurrence of the marker, or to the end), stripped; otherwise empty. -/
def answerOf (content : List Char) : List Char :=
  if containsSub answerMarker content then
    pyStrip ((pySplit answerMarker content).getD 1 [])
  else []

/-- A question and answer record of parse_questions_and_answers. -/
structure QA where
  question : String
  answer : String
deriving DecidableEq

/-- The fixed head of the question marker regex of chatbot.py line 145. -/
def qHead : List Char := "**Question ".toList

/-- Match of the regex question marker pattern (two stars, the word
Question, a space, one or more digits, a colon) at the head of the list;
returns the matched marker and the remainder. The greedy digit run is
deterministic because a shorter run would leave a digit where the colon
is required. -/
def qMarkerAt (cs : List Char) : Option (List Char × List Char) :=
  match stripPre qHead cs with
  | none => none
  | some r1 =>
    let ds := r1.takeWhile Char.isDigit
    if ds.isEmpty then none
    else
      match r1.dropWhile Char.isDigit with
      | ':' :: r2 => some (qHead ++ ds ++ [':'], r2)
      | _ => none

/-- re.split with the capturing question-marker pattern (chatbot.py line
145), fuel-indexed: the scanner walks the text, emits the segment before
each marker and the marker itself, and continues after the marker. -/
def reSplitQF : Nat → List Char → List Char → List (List Char)
  | _, [], acc => [acc.reverse]
  | 0, cs, acc => [acc.reverse ++ cs]
  | f + 1, c :: rest, acc =>
    match qMarkerAt (c :: rest) with
    | some (m, after) => acc.reverse :: m :: reSplitQF f after []
    | none => reSplitQF f rest (c :: acc)

/-- re.split of chatbot.py line 145 with the marker kept as its own part. -/
def reSplitQ (cs : List Char) : List (List Char) := reSplitQF cs.length cs []

/-- The pairing loop of parse_questions_and_answers (chatbot.py lines
148-158) over the parts that follow the preamble: the marker segment,
stripped, is the question; the following content segment supplies the
answer; a trailing marker with no content yields an empty answer. -/
def qaPairs : List (List Char) → List QA
  | [] => []
  | [q] => [⟨String.mk (pyStrip q), ""⟩]
  | q :: content :: rest =>
    ⟨String.mk (pyStrip q), String.mk (answerOf content)⟩ :: qaPairs rest

/-- parse_questions_and_answers of chatbot.py (lines 134-160). -/
def parse_questions_and_answers (response_text : String) : List QA :=
  match reSplitQ response_text.toList with
  | [] => []
  | _ :: parts => qaPairs parts


/-- Characters of the regex class of the section header pattern of
chatbot.py line 115: ASCII letters and whitespace. -/
def isHeaderChar (c : Char) : Bool := c.isAlpha || isSpaceChar c

/-- Match of the section header pattern (two stars, one or more letters
or whitespace, a colon, two stars) at the head of the list; returns the
captured label and the remainder. The greedy character-class run is
deterministic because a shorter run would leave a class character where
the colon is required. -/
def headerAt : List Char → Option (List Char × List Char)
  | '*' :: '*' :: r1 =>
    let lab := r1.takeWhile isHeaderChar
    if lab.isEmpty then none
    else
      match r1.dropWhile isHeaderChar with
      | ':' :: '*' :: '*' :: r2 => some (lab, r2)
      | _ => none
  | _ => none

/-- re.finditer over the section header pattern (chatbot.py lines
115-116), fuel-indexed, tracking the character offset of each match
start; matches are non-overlapping and scanning resumes after a match. -/
def findHeadersF : Nat → Nat → List Char → List (List Char × Nat)
  | _, _, [] => []
  | 0, _, _ => []
  | f + 1, pos, c :: rest =>
    match headerAt (c :: rest) with
    | some (lab, r2) => (lab, pos) :: findHeadersF f (pos + lab.length + 5) r2
    | none => findHeadersF f (pos + 1) rest

/-- All section header matches of a response with their start offsets. -/
def findHeaders (cs : List Char) : List (List Char × Nat) :=
  findHeadersF cs.length 0 cs

/-- Label normalization of chatbot.py line 117: strip, lowercase, then
replace spaces with underscores. -/
def normLabel (lab : List Char) : String :=
  String.mk (((pyStrip lab).map Char.toLower).map (fun c => if c = ' ' then '_' else c))

/-- Python dict assignment on an insertion-ordered association list: an
existing key keeps its position and gets the new value, a new key is
appended at the end. -/
def dictSet {α : Type} : List (String × α) → String → α → List (String × α)
  | [], k, v => [(k, v)]
  | p :: rest, k, v =>
    if p.1 == k then (k, v) :: rest else p :: dictSet rest k v

/-- Python dict lookup with the get method: the value of the first entry
with the key, none when absent. -/
def dictGet {α : Type} : List (String × α) → String → Option α
  | [], _ => none
  | p :: rest, k => if p.1 == k then some p.2 else dictGet rest k

/-- The sections dict of chatbot.py line 117: normalized label to match
start offset, built in match order with dict-comprehension semantics (a
repeated label keeps its first position and the last offset). -/
def sectionsOf (resp : List Char) : List (String × Nat) :=
  (findHeaders resp).foldl (fun d lp => dictSet d (normLabel lp.1) lp.2) []

/-- Python string slicing s[a:b] by character index. -/
def sliceChars (cs : List Char) (a b : Nat) : List Char :=
  (cs.take b).drop a

/-- The two-star delimiter of chatbot.py line 124. -/
def starMarker : List Char := "**".toList

/-- The content of one section (chatbot.py line 124): slice the response
from the header start to the next header start (or the end), split on
the two-star delimiter, keep the last part and strip it. -/
def sectionContent (resp : List Char) (a b : Nat) : String :=
  String.mk (pyStrip ((pySplit starMarker (sliceChars resp a b)).getLastD []))

/-- The end offset of a section (chatbot.py line 123): the offset stored
for the next key of the sections dict, or the length of the response for
the last key. -/
def nextBound (resp : List Char) : List (String × Nat) → Nat
  | [] => resp.length
  | (_, a2) :: _ => a2

/-- The section loop of parse_plot_points_response (chatbot.py lines
121-125): for each entry of the sections dict in order, the content span
runs to the offset stored for the next key in order (or to the end of
the response), and the content is assigned to the dict under the
normalized label, known or not. -/
def applySections (resp : List Char) :
    List (String × Nat) → List (String × String) → List (String × String)
  | [], d => d
  | (k, a) :: rest, d =>
    applySections resp rest (dictSet d k (sectionContent resp a (nextBound resp rest)))

/-- The eight known field names of parse_plot_points_response
(chatbot.py lines 104-113), in their dict insertion order. -/
def knownKeys : List String :=
  ["death_and_tragic_events", "decisions", "conflicts", "character_development",
   "symbolism_and_imagery", "foreshadowing", "setting_description", "chapter_summary"]

/-- The initial plot points dict: the eight known fields, each empty. -/
def initPlotData : List (String × String) :=
  knownKeys.map (fun k => (k, ""))

/-- parse_plot_points_response of chatbot.py (lines 101-131): find the
headers, build the sections dict, run the section loop, then strip every
value (lines 127-128). -/
def parse_plot_points_response (response : String) : List (String × String) :=
  let resp := response.toList
  let d := applySections resp (sectionsOf resp) initPlotData
  d.map (fun p => (p.1, String.mk (pyStrip p.2.toList)))




/-- A PlotPoint record (database.py, external collaborator), populated as
in generate_plot_points (chatbot.py lines 81-93): dict.get yields an
Option for each of the eight fields. -/
structure PlotPoint where
  book_name : String
  chapter_name : String
  chapter_number : Nat
  death_and_tragic_events : Option String
  decisions : Option String
  conflicts : Option String
  character_development : Option String
  symbolism_and_imagery : Option String
  foreshadowing : Option String
  setting_description : Option String
  chapter_summary : Option String
deriving DecidableEq

/-- The pair returned by generate_plot_points (chatbot.py lines 74 and
98): either None with an error payload, or the record and parsed data. -/
inductive PlotOutcome where
  | errorOut (payload : String)
  | okOut (pp : PlotPoint) (data : List (String × String))

/-- Modelled from the spec: the external collaborators of the pipeline
that are not under src. The prompt builders of chatbot/prompt_generating
and chapters_to_list of functions/formatting are, per the spec, thin
plumbing producing plain strings (a prompt builder receives the possibly
absent chapter text); pages gives the extracted page texts of a book;
chapterCache is the get_chapter store; api gives the outcome of each
attempt of a prompt. -/
structure Env where
  buildChapterListPrompt : String → String
  chaptersToList : String → List String
  buildPlotPrompt : String → String → Option String → String
  buildQuestionsPrompt : String → String → List (String × String) → String
  buildAnswersPrompt : String → String → List (String × String) → String → String
  pages : String → List String
  chapterCache : String → String → Option String
  api : String → Nat → ApiOutcome

/-- The observable state threaded through a pipeline run: the prompt
cache, the log of execute_prompt invocations with their attempt counts,
and the PlotPoint records handed to the save collaborator. -/
structure PState where
  promptCache : String → Option String
  calls : List (String × Nat)
  saved : List PlotPoint

/-- One execute_prompt invocation inside the pipeline, recording the
prompt and the number of attempts in the call log. -/
def runPrompt (env : Env) (st : PState) (prompt : String) (override : Bool) :
    String × PState :=
  let r := execute_prompt st.promptCache prompt override (env.api prompt)
  (r.1, { st with promptCache := r.2.1, calls := st.calls ++ [(prompt, r.2.2)] })

/-- get_chapter_list of chatbot.py (lines 19-22). -/
def get_chapter_list (env : Env) (st : PState) (book_name : String) :
    List String × PState :=
  let r := runPrompt env st (env.buildChapterListPrompt book_name) false
  (env.chaptersToList r.1, r.2)

/-- The literal tested against the plot points response
(chatbot.py line 73). -/
def errToken : List Char := "Error".toList

/-- generate_plot_points of chatbot.py (lines 66-98): list the chapters,
locate the chapter (a locator exception propagates), build and execute
the plot points prompt with override, return the error pair when the
response contains the error literal, otherwise parse, assemble the
record, save it and return it. The locator result is not inspected: a
None chapter text flows into the prompt builder. -/
def generate_plot_points (env : Env) (st : PState) (book_name chapter_name : String) :
    Except String (PlotOutcome × PState) :=
  let r1 := get_chapter_list env st book_name
  let chapter_list := r1.1
  let st1 := r1.2
  match find_chapter (env.chapterCache book_name chapter_name) (env.pages book_name)
      chapter_name chapter_list with
  | .error e => .error e
  | .ok page_content =>
    let r2 := runPrompt env st1 (env.buildPlotPrompt book_name chapter_name page_content) true
    let resp := r2.1
    let st2 := r2.2
    if containsSub errToken resp.toList then .ok (.errorOut resp, st2)
    else
      let data := parse_plot_points_response resp
      let chapter_number :=
        if chapter_name ∈ chapter_list then chapter_list.indexOf chapter_name + 1 else 0
      let pp : PlotPoint :=
        { book_name := book_name, chapter_name := chapter_name,
          chapter_number := chapter_number,
          death_and_tragic_events := dictGet data "death_and_tragic_events",
          decisions := dictGet data "decisions",
          conflicts := dictGet data "conflicts",
          character_development := dictGet data "character_development",
          symbolism_and_imagery := dictGet data "symbolism_and_imagery",
          foreshadowing := dictGet data "foreshadowing",
          setting_description := dictGet data "setting_description",
          chapter_summary := dictGet data "chapter_summary" }
      .ok (.okOut pp data, { st2 with saved := st2.saved ++ [pp] })

/-- generate_bagrut_qa of chatbot.py (lines 163-182): execute the
questions prompt, then the answers prompt built from the combined
questions, and parse the answers response. -/
def generate_bagrut_qa (env : Env) (st : PState) (book_name chapter_name : String)
    (data : List (String × String)) : List QA × PState :=
  let r1 := runPrompt env st (env.buildQuestionsPrompt book_name chapter_name data) false
  let r2 := runPrompt env r1.2 (env.buildAnswersPrompt book_name chapter_name data r1.1) false
  (parse_questions_and_answers r2.1, r2.2)

/-- format_bagrut_output of chatbot.py (lines 185-208): render each pair
with a nonempty stripped question and answer as a Q line and an A line
with a trailing blank line, joined with newlines. -/
def format_bagrut_output (qas : List QA) : String :=
  String.intercalate "\n"
    ((qas.map (fun qa =>
      let q := String.mk (pyStrip qa.question.toList)
      let a := String.mk (pyStrip qa.answer.toList)
      if q ≠ "" ∧ a ≠ "" then ["Q: " ++ q, "A: " ++ a ++ "\n"] else [])).flatten)

/-- generate_chapter_bagrutQnA of chatbot.py (lines 212-236): generate
the plot points; a None record yields the error string; otherwise
generate and format the questions and answers. -/
def generate_chapter_bagrutQnA (env : Env) (st : PState) (book_name chapter : String) :
    Except String (String × PState) :=
  match generate_plot_points env st book_name chapter with
  | .error e => .error e
  | .ok (.errorOut payload, st1) =>
    .ok ("Error generating plot points for " ++ chapter ++ ": " ++ payload, st1)
  | .ok (.okOut _ data, st1) =>
    let r := generate_bagrut_qa env st1 book_name chapter data
    .ok (format_bagrut_output r.1, r.2)

/-- Whether an Except value is a normal return. -/
def isOkE {ε α : Type} : Except ε α → Bool
  | .ok _ => true
  | .error _ => false

/-- The prompts submitted to the executor during a pipeline run. -/
def callPrompts {α : Type} : Except String (α × PState) → List String
  | .ok (_, st) => st.calls.map Prod.fst
  | .error _ => []

/-- The number of executor invocations during a pipeline run. -/
def callCountE {α : Type} : Except String (α × PState) → Nat
  | .ok (_, st) => st.calls.length
  | .error _ => 0

/-- The number of records handed to the save collaborator. -/
def savedCountE {α : Type} : Except String (α × PState) → Nat
  | .ok (_, st) => st.saved.length
  | .error _ => 0

/-- The plot points response a pipeline run observes: the answer of the
forced plot-prompt execution after the chapter listing, with the locator
reporting no chapter text. -/
def plotRespOf (env : Env) (st : PState) (book_name chapter_name : String) : String :=
  (runPrompt env (get_chapter_list env st book_name).2
    (env.buildPlotPrompt book_name chapter_name none) true).1

/-- A concrete environment in which the locator reports NotFound for
chapter B of book bk while every remote call succeeds with a response
free of the error literal. -/
def envC : Env :=
  { buildChapterListPrompt := fun b => "chapters of " ++ b,
    chaptersToList := fun _ => ["A", "B", "C"],
    buildPlotPrompt := fun _ c pc =>
      "plot " ++ c ++ (match pc with | some t => t | none => " no text"),
    buildQuestionsPrompt := fun _ c _ => "questions " ++ c,
    buildAnswersPrompt := fun _ c _ qs => "answers " ++ c ++ " " ++ qs,
    pages := fun _ => ["x", "y"],
    chapterCache := fun _ _ => none,
    api := fun p _ => .success ("resp " ++ p) }

/-- The empty initial pipeline state. -/
def st0 : PState := ⟨fun _ => none, [], []⟩





/-- Claim C1 (code bug evidence): with pages whose titles AA and BB occur
on pages 1 and 2 of a four page document, locating the first listed
chapter AA yields the not-found None instead of the span starting at page
1, because the final-page iteration of the scan overwrites the recorded
start of the first listed title with -1 whenever that title is absent
from the final page. -/
theorem C1_first_chapter_eval :
    substrIn "AA" "AA x" = true ∧ substrIn "BB" "BB y" = true
    ∧ find_chapter none ["p", "AA x", "BB y", "zz"] "AA" ["AA", "BB"] = .ok none := by
  decide

/-- Claim C2 (code bug evidence): with the last listed chapter B resolved
to start page 1 of a three page document, find_chapter raises IndexError
instead of returning a span ending at the last page index, because the
subscript chapter_list[index + 1] on line 57 is evaluated before the
last-chapter branch of lines 59-60. -/
theorem C2_last_chapter_eval :
    find_chapter none ["x", "Bq", "y"] "B" ["A", "B"] = .error "IndexError" := by
  decide

/-- Claim C3 (counterexample): the title T occurs first on page 1, yet the
scan records page 3, because a title that already matched keeps being
tested and its entry is overwritten on every later matching page. -/
theorem C3_counterexample :
    substrIn "T" "" = false ∧ substrIn "T" "T a" = true
    ∧ scanPages ["", "T a", "T b", "T c"] ["T"] "T" = 3 ∧ ((3 : Int) ≠ 1) := by
  decide

/-- Claim C3 (amended): on a page that is not the final one, exactly the
first title in list order whose text occurs in the page is recorded, at
the current page index, overwriting any earlier record; titles after it
are not tested on that page, and a page matching no title changes
nothing. On the final page only the head of the chapter list is
examined: it is recorded at the final page index when it matches and at
-1 otherwise. -/
theorem C3_scan_step (i : Nat) (p : String) (cl : List String) (m : String → Int) :
    (scanPage false i p cl m =
      match cl.find? (fun c => substrIn c p) with
      | some c => updMap m c i
      | none => m)
    ∧ ∀ c rest, scanPage true i p (c :: rest) m =
        if substrIn c p then updMap m c i else updMap m c (-1) := by
  constructor
  · induction cl with
    | nil => rfl
    | cons c rest ih =>
      by_cases h : substrIn c p = true
      · simp [scanPage, h, List.find?]
      · simp only [Bool.not_eq_true] at h
        simp [scanPage, h, List.find?, ih]
  · intro c rest
    by_cases h : substrIn c p = true
    · simp [scanPage, h]
    · simp only [Bool.not_eq_true] at h
      simp [scanPage, h]

/-- Claim C7 (counterexample): on the specified input the first parsed
record has the marker segment as its question text, not the text that
follows the marker. -/
theorem C7_counterexample :
    ((parse_questions_and_answers
        "Intro **Question 1:** What happened? **Answer:** She left. **Question 2:** Why? **Answer:** Fear.").map
      QA.question).head? = some "**Question 1:"
    ∧ ("**Question 1:" : String) ≠ "What happened?" := by decide

/-- Claim C7 (amended): on the specified input the parser returns exactly
two records in order; each question text is the captured marker segment
itself, and the answers are the stripped texts after the answer marker. -/
theorem C7_parse_qa :
    parse_questions_and_answers
        "Intro **Question 1:** What happened? **Answer:** She left. **Question 2:** Why? **Answer:** Fear."
      = [⟨"**Question 1:", "She left."⟩, ⟨"**Question 2:", "Fear."⟩] := by decide

/-- Claim C8 (counterexample): a response with the unknown header label
Weird Label produces a mapping that contains the extra key weird_label,
so unknown labels are stored, not silently ignored, and the mapping does
not consist of the eight known field names only. -/
theorem C8_counterexample :
    "weird_label" ∈ (parse_plot_points_response "**Weird Label:** stuff").map Prod.fst
    ∧ "weird_label" ∉ knownKeys
    ∧ dictGet (parse_plot_points_response "**Weird Label:** stuff") "weird_label"
        = some "stuff" := by decide

/-- Claim C9 (counterexample): the title B first occurs on page 0 but
also on page 2; the scan records the later match, so find_chapter
returns a span instead of the claimed NotFound. -/
theorem C9_counterexample :
    substrIn "B" "B here" = true
    ∧ find_chapter none ["B here", "A here", "B again", "C here", "end"] "B"
        ["A", "B", "C"] = .ok (some "B again C here ") := by decide

/-- Claim C4 (counterexample): first, with the start of chapter B
resolved to page 1 and the next title unresolved, the fallback end page
is the list index of B plus 5, namely page 6, not start plus 4 (which
would stop at page 5); second, with the next start resolved to a page at
or before the start (end 2, start 3), no fallback happens at all and the
extraction range is empty. -/
theorem C4_counterexample :
    find_chapter none ["pg0", "B start", "two", "three", "four", "five", "six", "seven"]
        "B" ["A", "B", "C"] = .ok (some "B start two three four five six ")
    ∧ ("B start two three four five six " : String) ≠ "B start two three four five "
    ∧ find_chapter none ["", "", "C x", "B x", "tail"] "B" ["A", "B", "C"]
        = .ok (some "") := by decide

/-- Claim C6 (counterexample): in the concrete environment the locator
reports NotFound for chapter B, yet the pipeline performs the plot
points generation call and both question and answer calls (four executor
invocations in total), persists one record, and returns normally. -/
theorem C6_counterexample :
    find_chapter (envC.chapterCache "bk" "B") (envC.pages "bk") "B"
        (get_chapter_list envC st0 "bk").1 = .ok none
    ∧ callCountE (generate_chapter_bagrutQnA envC st0 "bk" "B") = 4
    ∧ savedCountE (generate_chapter_bagrutQnA envC st0 "bk" "B") = 1
    ∧ isOkE (generate_chapter_bagrutQnA envC st0 "bk" "B") = true := by decide

theorem execute_prompt_miss (cache : String → Option String) (prompt : String)
    (override : Bool) (api : Nat → ApiOutcome)
    (hmiss : cache prompt = none ∨ override = true) :
    execute_prompt cache prompt override api
      = attemptLoop prompt cache [api 0, api 1, api 2] := by
  rcases hmiss with h | h
  · simp [execute_prompt, h]
  · subst h
    cases hc : cache prompt <;> simp [execute_prompt, hc]

/-- Claim C5: when the prompt is not cached or the refresh is forced, the
executor with three failing attempts performs exactly 3 attempts,
returns the fixed sentinel string and leaves the cache untouched (it is
total, so nothing is raised); and when attempt i is the first success,
it returns that answer after i + 1 attempts with the answer stored in
the cache under the exact prompt string. -/
theorem C5_executor (cache : String → Option String) (prompt : String)
    (override : Bool) (api : Nat → ApiOutcome)
    (hmiss : cache prompt = none ∨ override = true) :
    ((∀ i, i < 3 → api i = .failure) →
      execute_prompt cache prompt override api = (sentinelMsg, cache, 3))
    ∧ (∀ i t, i < 3 → (∀ j, j < i → api j = .failure) → api i = .success t →
      execute_prompt cache prompt override api = (t, updCache cache prompt t, i + 1)) := by
  rw [execute_prompt_miss cache prompt override api hmiss]
  constructor
  · intro hfail
    rw [hfail 0 (by omega), hfail 1 (by omega), hfail 2 (by omega)]
    rfl
  · intro i t hi hjf hs
    interval_cases i
    · rw [hs]; rfl
    · rw [hjf 0 (by omega), hs]; rfl
    · rw [hjf 0 (by omega), hjf 1 (by omega), hs]; rfl

/-- Claim C5 (witness): the executor instantiated on an empty cache with
always-failing attempts, and with an immediately successful attempt. -/
theorem C5_witness :
    (execute_prompt (fun _ => none) "p" false (fun _ => .failure)
      = (sentinelMsg, (fun _ => none), 3))
    ∧ (execute_prompt (fun _ => none) "p" false (fun _ => .success "ans")
      = ("ans", updCache (fun _ => none) "p" "ans", 1)) :=
  ⟨(C5_executor (fun _ => none) "p" false (fun _ => .failure) (Or.inl rfl)).1
      (fun _ _ => rfl),
   (C5_executor (fun _ => none) "p" false (fun _ => .success "ans") (Or.inl rfl)).2
      0 "ans" (by omega) (fun j hj => absurd hj (Nat.not_lt_zero j)) rfl⟩

theorem scanPage_absent (isLast : Bool) (i : Nat) (p cn : String)
    (h : substrIn cn p = false) (cl : List String) :
    ∀ m : String → Int,
      scanPage isLast i p cl m cn = m cn ∨ scanPage isLast i p cl m cn = -1 := by
  induction cl with
  | nil => intro m; exact Or.inl rfl
  | cons c rest ih =>
    intro m
    by_cases hc : substrIn c p = true
    · left
      have hne : cn ≠ c := fun e => by rw [e, hc] at h; exact Bool.noConfusion h
      simp [scanPage, hc, updMap, hne]
    · have hc' : substrIn c p = false := by simpa using hc
      cases isLast
      · simp only [scanPage, hc', Bool.false_eq_true, if_false]
        exact ih m
      · by_cases he : cn = c
        · right; simp [scanPage, hc', updMap, he]
        · left; simp [scanPage, hc', updMap, he]

theorem scanPages_absent (pages cl : List String) (cn : String)
    (h : ∀ p ∈ pages, substrIn cn p = false) :
    scanPages pages cl cn = 0 ∨ scanPages pages cl cn = -1 := by
  have key : ∀ (l : List (Nat × String)) (m : String → Int),
      (∀ x ∈ l, substrIn cn x.2 = false) →
      (m cn = 0 ∨ m cn = -1) →
      ((l.foldl (fun m ip => scanPage (ip.1 == pages.length - 1) ip.1 ip.2 cl m) m) cn = 0
        ∨ (l.foldl (fun m ip => scanPage (ip.1 == pages.length - 1) ip.1 ip.2 cl m) m) cn
            = -1) := by
    intro l
    induction l with
    | nil => intro m _ hm; simpa using hm
    | cons x xs ih =>
      intro m hl hm
      simp only [List.foldl_cons]
      apply ih
      · intro y hy; exact hl y (List.mem_cons_of_mem x hy)
      · rcases scanPage_absent (x.1 == pages.length - 1) x.1 x.2 cn
            (hl x (List.mem_cons_self x xs)) cl m with h1 | h1
        · rw [h1]; exact hm
        · right; exact h1
  apply key
  · intro x hx
    apply h
    have hx2 : x.2 ∈ pages.enum.map Prod.snd := List.mem_map_of_mem Prod.snd hx
    rwa [List.enum_map_snd] at hx2
  · left; rfl

/-- Claim C9 (amended): for every requested chapter that is in the
chapter list and whose title is contained in no page's extracted text,
find_chapter returns the None-equivalent not-found result and raises
nothing. (The page-0 clause of the original claim fails: the scan keeps
retesting a matched title, so a title first matching page 0 is located
whenever a later page matches it again.) -/
theorem C9_not_found (pages : List String) (chapter_name : String)
    (chapter_list : List String) (hmem : chapter_name ∈ chapter_list)
    (habs : ∀ p ∈ pages, substrIn chapter_name p = false) :
    find_chapter none pages chapter_name chapter_list = .ok none := by
  have h := scanPages_absent pages chapter_list chapter_name habs
  simp only [find_chapter]
  rw [if_pos hmem, if_pos (by tauto)]

/-- Claim C9 (witness): the chapter B is listed but occurs on no page, so
find_chapter returns the not-found None. -/
theorem C9_witness : find_chapter none ["x", "y"] "B" ["A", "B"] = .ok none :=
  C9_not_found ["x", "y"] "B" ["A", "B"] (by decide) (by decide)

/-- Claim C4 (amended): when the requested chapter's start is resolved to
a page greater than 0, the chapter is not the last listed one, and the
recorded start of the next listed title is at or below 0 (unresolved),
find_chapter extracts the pages from the start through the chapter's
position in the chapter list plus 5, inclusive — the fallback end is the
list index plus 5, not the start page plus 4, and it is triggered by the
next start being unresolved, not by the end being at or before the
start. -/
theorem C4_fallback_window (pages : List String) (cn nextc : String)
    (cl : List String) (hmem : cn ∈ cl)
    (hpos : 0 < scanPages pages cl cn)
    (hnext : cl.get? (cl.indexOf cn + 1) = some nextc)
    (hlow : scanPages pages cl nextc ≤ 0) :
    find_chapter none pages cn cl
      = exceptSome (extractLoop pages
          (pyRangeIncl (scanPages pages cl cn) ((cl.indexOf cn : Int) + 5))) := by
  have hne : ¬ (scanPages pages cl cn = -1 ∨ scanPages pages cl cn = 0) := by
    rintro (h | h) <;> omega
  have hidx : cl.indexOf cn + 1 < cl.length := by
    by_contra hh
    push_neg at hh
    rw [List.get?_eq_none.mpr hh] at hnext
    exact Option.noConfusion hnext
  have hlast : cl.indexOf cn ≠ cl.length - 1 := by omega
  simp only [find_chapter]
  rw [if_pos hmem, if_neg hne, hnext]
  simp only [if_neg hlast, if_pos hlow]

/-- Claim C4 (witness): chapter B starts at page 1 of a seven page
document, the next title C is unresolved, and the extracted window runs
from page 1 through page 6 (index 1 plus 5). -/
theorem C4_witness :
    find_chapter none ["", "B!", "", "", "", "", ""] "B" ["A", "B", "C"]
      = exceptSome (extractLoop ["", "B!", "", "", "", "", ""]
          (pyRangeIncl (scanPages ["", "B!", "", "", "", "", ""] ["A", "B", "C"] "B")
            ((List.indexOf "B" ["A", "B", "C"] : Int) + 5))) :=
  C4_fallback_window ["", "B!", "", "", "", "", ""] "B" "C" ["A", "B", "C"]
    (by decide) (by decide) (by decide) (by decide)

/-- Claim C6 (amended): when the locator reports its None-equivalent
NotFound, the pipeline does not terminate early: generate_plot_points
still completes normally, the plot points prompt (built from the absent
chapter text) is submitted to the executor, and a record is persisted
exactly when the generation response does not contain the Error literal
— only that literal check short-circuits. -/
theorem C6_no_short_circuit (env : Env) (st : PState) (book chapter : String)
    (h1 : find_chapter (env.chapterCache book chapter) (env.pages book) chapter
        (get_chapter_list env st book).1 = .ok none) :
    isOkE (generate_plot_points env st book chapter) = true
    ∧ callPrompts (generate_plot_points env st book chapter)
        = st.calls.map Prod.fst
          ++ [env.buildChapterListPrompt book, env.buildPlotPrompt book chapter none]
    ∧ savedCountE (generate_plot_points env st book chapter)
        = st.saved.length
          + (if containsSub errToken (plotRespOf env st book chapter).toList then 0
             else 1) := by
  simp only [generate_plot_points, plotRespOf, String.toList, h1]
  have hsv : (runPrompt env (get_chapter_list env st book).2
      (env.buildPlotPrompt book chapter none) true).2.saved = st.saved := by
    simp [runPrompt, get_chapter_list]
  have hcl : (runPrompt env (get_chapter_list env st book).2
      (env.buildPlotPrompt book chapter none) true).2.calls.map Prod.fst
      = st.calls.map Prod.fst
        ++ [env.buildChapterListPrompt book, env.buildPlotPrompt book chapter none] := by
    simp [runPrompt, get_chapter_list]
  by_cases hc : containsSub errToken ((runPrompt env (get_chapter_list env st book).2
      (env.buildPlotPrompt book chapter none) true).1).data = true
  · rw [if_pos hc]
    refine ⟨rfl, ?_, ?_⟩
    · simpa [callPrompts] using hcl
    · simp [savedCountE, hsv, hc]
  · rw [if_neg hc]
    refine ⟨rfl, ?_, ?_⟩
    · simpa [callPrompts] using hcl
    · simp [savedCountE, hsv, hc]

theorem dictSet_fst {α : Type} (k : String) (v : α) :
    ∀ d : List (String × α),
      (dictSet d k v).map Prod.fst = d.map Prod.fst
      ∨ (dictSet d k v).map Prod.fst = d.map Prod.fst ++ [k] := by
  intro d
  induction d with
  | nil => right; rfl
  | cons p rest ih =>
    by_cases h : (p.1 == k) = true
    · left
      have hp : p.1 = k := eq_of_beq h
      simp [dictSet, h, hp]
    · rcases ih with h1 | h1
      · left; simp [dictSet, h, h1]
      · right; simp [dictSet, h, h1]

theorem dictGet_dictSet_ne {α : Type} (k q : String) (v : α) (hne : ¬ k = q) :
    ∀ d : List (String × α), dictGet (dictSet d k v) q = dictGet d q := by
  intro d
  induction d with
  | nil => simp [dictSet, dictGet, beq_iff_eq, hne]
  | cons p rest ih =>
    by_cases h : (p.1 == k) = true
    · have hp : p.1 = k := eq_of_beq h
      simp [dictSet, h, dictGet, beq_iff_eq, hne, hp]
    · simp [dictSet, h, dictGet, ih]

theorem dictGet_init_known (k : String) :
    ∀ ks : List String, k ∈ ks →
      dictGet (ks.map (fun x => (x, ("" : String)))) k = some "" := by
  intro ks
  induction ks with
  | nil => intro h; exact absurd h (List.not_mem_nil k)
  | cons x rest ih =>
    intro h
    by_cases he : x = k
    · simp [dictGet, he]
    · have hr : k ∈ rest := by
        rcases List.mem_cons.mp h with h1 | h1
        · exact absurd h1.symm he
        · exact h1
      simp [dictGet, beq_iff_eq, he, ih hr]

theorem dictGet_map_strip (k : String) :
    ∀ d : List (String × String),
      dictGet (d.map (fun p => (p.1, String.mk (pyStrip p.2.toList)))) k
        = (dictGet d k).map (fun s => String.mk (pyStrip s.toList)) := by
  intro d
  induction d with
  | nil => rfl
  | cons p rest ih =>
    by_cases h : (p.1 == k) = true
    · simp [dictGet, h]
    · simpa [dictGet, h] using ih

theorem fst_map_strip (d : List (String × String)) :
    (d.map (fun p => (p.1, String.mk (pyStrip p.2.toList)))).map Prod.fst
      = d.map Prod.fst := by
  induction d with
  | nil => rfl
  | cons p rest ih => simp [ih]

theorem applySections_keys (resp : List Char) :
    ∀ (secs : List (String × Nat)) (d : List (String × String))
      (extra : List String), d.map Prod.fst = knownKeys ++ extra →
      ∃ extra2, (applySections resp secs d).map Prod.fst = knownKeys ++ extra2 := by
  intro secs
  induction secs with
  | nil => intro d extra h; exact ⟨extra, h⟩
  | cons s rest ih =>
    intro d extra h
    obtain ⟨k, a⟩ := s
    simp only [applySections]
    rcases dictSet_fst k (sectionContent resp a (nextBound resp rest)) d with h1 | h1
    · exact ih _ extra (h1.trans h)
    · exact ih _ (extra ++ [k]) (by rw [h1, h, List.append_assoc])

theorem applySections_sub (resp : List Char) :
    ∀ (secs : List (String × Nat)) (d : List (String × String)) (x : String),
      x ∈ (applySections resp secs d).map Prod.fst →
      x ∈ d.map Prod.fst ∨ x ∈ secs.map Prod.fst := by
  intro secs
  induction secs with
  | nil => intro d x hx; exact Or.inl hx
  | cons s rest ih =>
    intro d x hx
    obtain ⟨k, a⟩ := s
    simp only [applySections] at hx
    rcases ih _ x hx with h1 | h1
    · rcases dictSet_fst k (sectionContent resp a (nextBound resp rest)) d with h2 | h2
      · rw [h2] at h1; exact Or.inl h1
      · rw [h2] at h1
        rcases List.mem_append.mp h1 with h3 | h3
        · exact Or.inl h3
        · right
          simp [List.mem_singleton.mp h3]
    · right
      simp [h1]

theorem applySections_get (resp : List Char) :
    ∀ (secs : List (String × Nat)) (d : List (String × String)) (q : String),
      q ∉ secs.map Prod.fst →
      dictGet (applySections resp secs d) q = dictGet d q := by
  intro secs
  induction secs with
  | nil => intro d q _; rfl
  | cons s rest ih =>
    intro d q hq
    obtain ⟨k, a⟩ := s
    have hkq : ¬ k = q := by
      intro e
      exact hq (by simp [e])
    have hrest : q ∉ rest.map Prod.fst := by
      intro e
      exact hq (by simp [e])
    simp only [applySections]
    rw [ih _ q hrest, dictGet_dictSet_ne k q _ hkq]

/-- Claim C8 (amended): the plot points parser always yields the eight
known field names, in order, at the front of the mapping; every further
key comes from a header found in the response (an unknown normalized
label is stored as an extra key, not ignored); and a known field whose
header never appears keeps the empty string. -/
theorem C8_plot_fields (response : String) :
    (∃ extra, (parse_plot_points_response response).map Prod.fst = knownKeys ++ extra)
    ∧ (∀ k, k ∈ (parse_plot_points_response response).map Prod.fst →
        k ∉ knownKeys → k ∈ (sectionsOf response.toList).map Prod.fst)
    ∧ (∀ k, k ∈ knownKeys → k ∉ (sectionsOf response.toList).map Prod.fst →
        dictGet (parse_plot_points_response response) k = some "") := by
  refine ⟨?_, ?_, ?_⟩
  · simp only [parse_plot_points_response]
    rw [fst_map_strip]
    exact applySections_keys response.toList (sectionsOf response.toList) initPlotData []
      (by decide)
  · intro k hk hkn
    simp only [parse_plot_points_response] at hk
    rw [fst_map_strip] at hk
    rcases applySections_sub response.toList (sectionsOf response.toList) initPlotData k hk
        with h | h
    · exact absurd (by simpa [initPlotData] using h) hkn
    · exact h
  · intro k hk hks
    simp only [parse_plot_points_response]
    rw [dictGet_map_strip, applySections_get response.toList (sectionsOf response.toList)
        initPlotData k hks]
    rw [show initPlotData = knownKeys.map (fun x => (x, ("" : String))) from rfl]
    rw [dictGet_init_known k knownKeys hk]
    decide

/-- Claim C8 (witness): on a response with one unknown header, the extra
key weird_thing comes from the found sections, and the known field
decisions, whose header never appears, is the empty string. -/
theorem C8_witness :
    "weird_thing" ∈ (sectionsOf (String.toList "**Weird Thing:** x")).map Prod.fst
    ∧ dictGet (parse_plot_points_response "**Weird Thing:** x") "decisions" = some "" :=
  ⟨(C8_plot_fields "**Weird Thing:** x").2.1 "weird_thing" (by decide) (by decide),
   (C8_plot_fields "**Weird Thing:** x").2.2 "decisions" (by decide) (by decide)⟩

theorem pySplitF_fuel (sep : List Char) :
    ∀ (f1 : Nat) (cs : List Char) (f2 : Nat), cs.length ≤ f1 → cs.length ≤ f2 →
      pySplitF sep f1 cs = pySplitF sep f2 cs := by
  intro f1
  induction f1 with
  | zero =>
    intro cs f2 h1 _
    have hcs : cs = [] := List.length_eq_zero.mp (Nat.le_zero.mp h1)
    subst hcs
    cases f2 <;> rfl
  | succ g ih =>
    intro cs f2 h1 h2
    cases cs with
    | nil => cases f2 <;> rfl
    | cons c rest =>
      cases f2 with
      | zero => exact absurd h2 (by simp)
      | succ f3 =>
        have hr : rest.length ≤ g := by
          simp only [List.length_cons] at h1
          omega
        have hr3 : rest.length ≤ f3 := by
          simp only [List.length_cons] at h2
          omega
        simp only [pySplitF]
        by_cases hp : sep.isPrefixOf (c :: rest) = true
        · rw [if_pos hp, if_pos hp]
          rw [ih (rest.drop (sep.length - 1)) f3
            (le_trans (by simp [List.length_drop]) hr)
            (le_trans (by simp [List.length_drop]) hr3)]
        · rw [if_neg hp, if_neg hp, ih rest f3 hr hr3]

theorem pySplit_break (sep : List Char) (hsep : sep ≠ []) :
    ∀ (i : Nat) (cs : List Char),
      (∀ k, k < i → ¬ sep.isPrefixOf (cs.drop k) = true) →
      sep.isPrefixOf (cs.drop i) = true →
      pySplit sep cs = cs.take i :: pySplit sep (cs.drop (i + sep.length)) := by
  intro i
  induction i with
  | zero =>
    intro cs _ hp
    rw [List.drop_zero] at hp
    obtain ⟨s, ss, rfl⟩ : ∃ s ss, sep = s :: ss := by
      cases sep with
      | nil => exact absurd rfl hsep
      | cons s ss => exact ⟨s, ss, rfl⟩
    cases cs with
    | nil => simp [List.isPrefixOf] at hp
    | cons c rest =>
      show pySplitF (s :: ss) (c :: rest).length (c :: rest) = _
      simp only [List.length_cons, pySplitF]
      rw [if_pos hp]
      simp only [List.take_zero, Nat.zero_add, List.length_cons, Nat.add_sub_cancel,
        List.drop_succ_cons]
      congr 1
      exact pySplitF_fuel (s :: ss) rest.length (rest.drop ss.length)
        (rest.drop ss.length).length (by simp [List.length_drop]) (le_refl _)
  | succ n ih =>
    intro cs hlt hp
    cases cs with
    | nil =>
      obtain ⟨s, ss, rfl⟩ : ∃ s ss, sep = s :: ss := by
        cases sep with
        | nil => exact absurd rfl hsep
        | cons s ss => exact ⟨s, ss, rfl⟩
      simp [List.isPrefixOf] at hp
    | cons c rest =>
      have h0 : ¬ sep.isPrefixOf (c :: rest) = true := by
        have h00 := hlt 0 (Nat.succ_pos n)
        simpa using h00
      have ihr := ih rest (fun k hk => by simpa using hlt (k + 1) (by omega))
        (by simpa using hp)
      show pySplitF sep (c :: rest).length (c :: rest) = _
      simp only [List.length_cons, pySplitF]
      rw [if_neg h0]
      rw [show pySplitF sep rest.length rest = pySplit sep rest from rfl, ihr]
      have harith : n + 1 + sep.length = (n + sep.length) + 1 := by omega
      simp only [List.take_succ_cons, harith, List.drop_succ_cons]

theorem containsSub_of_prefix_drop (needle hay : List Char) (k : Nat)
    (h : needle.isPrefixOf (hay.drop k) = true) : containsSub needle hay = true := by
  unfold containsSub
  rw [List.any_eq_true]
  exact ⟨hay.drop k, (List.mem_tails _ _).mpr (List.drop_suffix k hay), h⟩

/-- Claim C10: when the content segment that follows a question marker
holds the answer marker at least twice (first occurrence at offset i,
next non-overlapping occurrence at offset j), the extracted answer is
exactly the stripped text strictly between the two occurrences, not
everything after the first; and this extraction is what
parse_questions_and_answers stores for the pair. -/
theorem C10_answer_between (content : List Char) (i j : Nat)
    (himin : ∀ k, k < i → ¬ answerMarker.isPrefixOf (content.drop k) = true)
    (hi : answerMarker.isPrefixOf (content.drop i) = true)
    (hij : i + answerMarker.length ≤ j)
    (hjmin : ∀ k, k < j → i + answerMarker.length ≤ k →
      ¬ answerMarker.isPrefixOf (content.drop k) = true)
    (hj : answerMarker.isPrefixOf (content.drop j) = true) :
    answerOf content
      = pyStrip ((content.drop (i + answerMarker.length)).take
          (j - (i + answerMarker.length)))
    ∧ ∀ q rest, (qaPairs (q :: content :: rest)).head?
        = some ⟨String.mk (pyStrip q), String.mk (answerOf content)⟩ := by
  constructor
  · have hcont : containsSub answerMarker content = true :=
      containsSub_of_prefix_drop answerMarker content i hi
    unfold answerOf
    rw [if_pos hcont]
    rw [pySplit_break answerMarker (by decide) i content himin hi]
    have h2 : pySplit answerMarker (content.drop (i + answerMarker.length))
        = (content.drop (i + answerMarker.length)).take (j - (i + answerMarker.length))
          :: pySplit answerMarker ((content.drop (i + answerMarker.length)).drop
              ((j - (i + answerMarker.length)) + answerMarker.length)) := by
      apply pySplit_break answerMarker (by decide)
      · intro k hk
        rw [List.drop_drop]
        exact hjmin (i + answerMarker.length + k) (by omega) (by omega)
      · rw [List.drop_drop]
        have he : i + answerMarker.length + (j - (i + answerMarker.length)) = j := by
          omega
        rw [he]
        exact hj
    rw [h2]
    rfl
  · intro q rest
    rfl

/-- Claim C10 (witness): a content segment holding the answer marker at
offsets 2 and 20; the parsed answer is the stripped slice strictly
between them. -/
theorem C10_witness :
    answerOf ("q **Answer:** first **Answer:** second".toList)
      = pyStrip ((("q **Answer:** first **Answer:** second".toList).drop
          (2 + answerMarker.length)).take (20 - (2 + answerMarker.length))) :=
  (C10_answer_between ("q **Answer:** first **Answer:** second".toList) 2 20
    (by decide) (by decide) (by decide) (by decide) (by decide)).1

/-- Claim C6 (witness): the amended statement instantiated in the
concrete environment where the locator reports NotFound for chapter B. -/
theorem C6_witness :
    isOkE (generate_plot_points envC st0 "bk" "B") = true
    ∧ callPrompts (generate_plot_points envC st0 "bk" "B")
        = st0.calls.map Prod.fst
          ++ [envC.buildChapterListPrompt "bk", envC.buildPlotPrompt "bk" "B" none]
    ∧ savedCountE (generate_plot_points envC st0 "bk" "B")
        = st0.saved.length
          + (if containsSub errToken (plotRespOf envC st0 "bk" "B").toList then 0
             else 1) :=
  C6_no_short_circuit envC st0 "bk" "B" (by decide)
